import Mathlib

/-!
Shallow embedding of `scripts/download_video.py` (youtube-downloader skill).

The embedding covers the parts of the program the specification's claims are
about: the output classifiers (`has_403_error`, `has_pot_error`,
`has_wpc_error`), command rebuilding (`with_player_client`,
`with_wpc_browser`, `replace_format_arg`), version comparison
(`version_at_least`), the quality-preset fallback selector
(`fallback_format_for_quality`), and the full control flow of
`download_video`: configuration validation, command construction, and the
ordered retry/fallback ladder.

External effects are modelled as an oracle record `Env`: whether the
`yt-dlp` binary is installed, the outcome of the PO-token provider setup,
the outcome of a provider restart, the outcome of the browser-provider
install, and the results of successive extractor invocations
(`Env.attempts n` is the result of the n-th `run_yt_dlp` call).  The
function returns an `Outcome` holding the exit code, the list of extractor
invocations (command line plus result), the number of times the result
finalizer (`finalize_download`) ran, and the list of escalation-ladder
rules whose corrective action was engaged (in the order their diagnostic
messages are printed; rules are numbered 1-6 as in the specification's
ladder).
-/

/-- An attempt record: exit code plus captured stdout/stderr
(`subprocess.CompletedProcess` as consumed by the classifiers). -/
structure AttemptResult where
  returncode : Int
  stdout : String
  stderr : String
deriving DecidableEq, Repr

/-- Python `str.lower()` (character-wise, as used on ASCII failure
signatures). -/
def py_lower (s : String) : String := String.mk (s.data.map Char.toLower)

/-- Python's substring test `needle in haystack`. -/
def py_in (needle haystack : String) : Bool := decide (needle.data <:+: haystack.data)

/-- The concatenated, lower-cased stdout+stderr of an attempt, the text all
three classifiers inspect. -/
def combined_lower (r : AttemptResult) : String := py_lower (r.stdout ++ r.stderr)

/-- `has_403_error` from the source: forbidden-access classifier. -/
def has_403_error (r : AttemptResult) : Bool :=
  let text := combined_lower r
  py_in "http error 403" text || py_in "403: forbidden" text || py_in "fragment 1 not found" text

/-- `has_pot_error` from the source: token-verification-failure classifier. -/
def has_pot_error (r : AttemptResult) : Bool :=
  let text := combined_lower r
  py_in "pot" text && py_in "error" text

/-- `has_wpc_error` from the source: browser-verification-pending classifier. -/
def has_wpc_error (r : AttemptResult) : Bool :=
  let text := combined_lower r
  py_in "pot:wpc" text || py_in "webpoclient" text

/-- Python truthiness of an optional string (`None` and `""` are falsy). -/
def truthy : Option String → Bool
  | none => false
  | some s => !s.isEmpty

/-- The token-dropping loop inside `with_player_client`: every
`--extractor-args` token is skipped together with the token immediately
following it. -/
def strip_extractor_args : List String → List String
  | [] => []
  | [t] => if t = "--extractor-args" then [] else [t]
  | t :: v :: rest =>
    if t = "--extractor-args" then strip_extractor_args rest
    else t :: strip_extractor_args (v :: rest)

/-- `with_player_client` from the source: drop all existing
`--extractor-args` pairs, then append a single
`youtube:player_client=<client>` pair. -/
def with_player_client (cmd : List String) (client : String) : List String :=
  strip_extractor_args cmd ++ ["--extractor-args", "youtube:player_client=" ++ client]

/-- `with_wpc_browser` from the source: append the WPC browser-path
extractor argument when a browser path is known. -/
def with_wpc_browser (cmd : List String) (browser_path : Option String) : List String :=
  if truthy browser_path then
    cmd ++ ["--extractor-args", "youtubepot-wpc:browser_path=" ++ browser_path.getD ""]
  else cmd

/-- Python `value.split(".")` on a character list (keeps empty segments,
like Python). -/
def splitOnDot : List Char → List (List Char)
  | [] => [[]]
  | c :: rest =>
    let r := splitOnDot rest
    if c = '.' then [] :: r
    else
      match r with
      | [] => [[c]]
      | seg :: segs => (c :: seg) :: segs

/-- Python `str.isdigit()`: nonempty and all digits. -/
def isdigitStr (cs : List Char) : Bool := !cs.isEmpty && cs.all Char.isDigit

/-- Python `int(...)` on a digit string. -/
def digitsToNat (cs : List Char) : Nat := cs.foldl (fun a c => a * 10 + (c.toNat - 48)) 0

/-- The `parse` helper inside `version_at_least`: split on dots, keep only
all-digit components, convert to integers. -/
def parseVersion (s : String) : List Nat :=
  ((splitOnDot s.data).filter isdigitStr).map digitsToNat

/-- Zero-pad a component list on the right up to length `n` (the two
`while` loops in `version_at_least`). -/
def padTo (l : List Nat) (n : Nat) : List Nat := l ++ List.replicate (n - l.length) 0

/-- Python list comparison `current >= required` (lexicographic). -/
def lexGe : List Nat → List Nat → Bool
  | [], [] => true
  | [], _ :: _ => false
  | _ :: _, [] => true
  | a :: as, b :: bs => if a > b then true else if b > a then false else lexGe as bs

/-- `version_at_least` from the source. -/
def version_at_least (version minimum : String) : Bool :=
  let current := parseVersion version
  let required := parseVersion minimum
  if current.isEmpty || required.isEmpty then false
  else
    let n := max current.length required.length
    lexGe (padTo current n) (padTo required n)

/-- The `QUALITY_PRESETS` table from the source. -/
def QUALITY_PRESETS (q : String) : Option String :=
  if q = "best" then some "bestvideo+bestaudio/best"
  else if q = "1080p" then some "bestvideo[height<=1080]+bestaudio/best"
  else if q = "720p" then some "bestvideo[height<=720]+bestaudio/best"
  else if q = "480p" then some "bestvideo[height<=480]+bestaudio/best"
  else if q = "360p" then some "bestvideo[height<=360]+bestaudio/best"
  else if q = "worst" then some "worstvideo+worstaudio/worst"
  else none

/-- `fallback_format_for_quality` from the source. -/
def fallback_format_for_quality (quality : Option String) : String :=
  if !truthy quality || quality == some "best" then
    "best[protocol!*=m3u8][ext=mp4]/best[protocol!*=m3u8]/best"
  else
    let cs := (quality.getD "").data
    if (cs.getLast? == some 'p') && isdigitStr cs.dropLast then
      let height := String.mk cs.dropLast
      "best[height<=" ++ height ++ "][protocol!*=m3u8][ext=mp4]/" ++
        "best[height<=" ++ height ++ "][protocol!*=m3u8]/best[protocol!*=m3u8]"
    else
      "best[protocol!*=m3u8][ext=mp4]/best[protocol!*=m3u8]/best"

/-- The retry-command surgery of the format-fallback rule: replace the
value after the first `-f` (when present and followed by a value), else
append a `-f` pair. -/
def replace_format_arg (cmd : List String) (fmt : String) : List String :=
  match cmd.indexOf? "-f" with
  | some i => if i + 1 < cmd.length then cmd.set (i + 1) fmt else cmd
  | none => cmd ++ ["-f", fmt]

/-- Python `a or b` on optional strings (first truthy operand). -/
def or_default (o : Option String) (d : String) : String :=
  if truthy o then o.getD d else d

/-- Provider backend identity returned by `ensure_po_token_provider`. -/
inductive ProviderType where
  | bgutil
  | wpc
deriving DecidableEq, Repr

/-- Oracle for all external effects consumed by `download_video`. -/
structure Env where
  yt_dlp_installed : Bool
  provider : Option ProviderType
  chrome_path : Option String
  restart_ok : Bool
  wpc_ensure_ok : Bool
  env_proxy : Option String
  resolved_template : String
  oembed_ok : Bool
  attempts : Nat → AttemptResult

/-- The keyword arguments of `download_video`. -/
structure Args where
  url : String
  format_spec : Option String
  quality : Option String
  merge_format : Option String
  subtitles : Bool
  subtitle_lang : String
  cookies_from_browser : Option String
  cookies_file : Option String
  player_client : Option String
  auto_po_token : Bool
  proxy : Option String
  wpc_browser_path : Option String
  allow_playlist : Bool
  use_android_client : Bool
  audio_only : Bool
  list_formats : Bool
  info_only : Bool

/-- One extractor invocation: the command line passed to `run_yt_dlp` and
the attempt result it produced. -/
structure Invocation where
  cmd : List String
  result : AttemptResult
deriving DecidableEq, Repr

/-- The observable outcome of a `download_video` call. -/
structure Outcome where
  exit : Int
  invocations : List Invocation
  finalizes : Nat
  fired : List Nat
deriving DecidableEq, Repr

/-- Ladder state threaded through the escalation stages: latest attempt
result, invocation trace so far, index of the next attempt, the
`wpc_retried` flag, and the rules engaged so far. -/
structure LState where
  result : AttemptResult
  trace : List Invocation
  idx : Nat
  wpc_retried : Bool
  fired : List Nat

/-- Session context fixed before the ladder runs. -/
structure Ctx where
  attempts : Nat → AttemptResult
  cmd : List String
  retry_client : Option String
  wpc_browser_path : Option String
  use_po_token : Bool
  provider_bgutil : Bool
  restart_ok : Bool
  wpc_ensure_ok : Bool
  cookies_from_browser : Bool
  player_client : Bool
  audio_only : Bool
  format_from_quality : Bool
  quality : Option String

/-- The retry command used by the browser-provider escalations: forced
fallback client plus the WPC browser path. -/
def wpcRetryCmd (ctx : Ctx) : List String :=
  with_wpc_browser (with_player_client ctx.cmd (or_default ctx.retry_client "mweb")) ctx.wpc_browser_path

/-- Ladder rule 6 (source lines 944-961): video session with a
quality-preset-derived format retries once with the non-m3u8 fallback
selector; otherwise the failure is final with the last attempt's code. -/
def stageE (ctx : Ctx) (s : LState) : Outcome :=
  if !ctx.audio_only && ctx.format_from_quality then
    let retry_cmd := replace_format_arg ctx.cmd (fallback_format_for_quality ctx.quality)
    let r := ctx.attempts s.idx
    let tr := s.trace ++ [⟨retry_cmd, r⟩]
    if r.returncode = 0 then ⟨0, tr, 1, s.fired ++ [6]⟩
    else ⟨r.returncode, tr, 0, s.fired ++ [6]⟩
  else ⟨s.result.returncode, s.trace, 0, s.fired⟩

/-- Ladder rule 5 (source lines 933-942): browser-cookie session with no
explicit player client retries once with the `web_safari` client on a
403-classified failure. -/
def stageD (ctx : Ctx) (s : LState) : Outcome :=
  if ctx.cookies_from_browser && !ctx.player_client && has_403_error s.result then
    let retry_cmd := with_player_client ctx.cmd "web_safari"
    let r := ctx.attempts s.idx
    let tr := s.trace ++ [⟨retry_cmd, r⟩]
    if r.returncode = 0 then ⟨0, tr, 1, s.fired ++ [5]⟩
    else stageE ctx ⟨r, tr, s.idx + 1, s.wpc_retried, s.fired ++ [5]⟩
  else stageE ctx s

/-- Ladder rule 4 (source lines 920-931): token failure with no earlier
browser-provider retry switches to the browser provider and retries once. -/
def stageC (ctx : Ctx) (s : LState) : Outcome :=
  if ctx.use_po_token && has_pot_error s.result && !s.wpc_retried then
    if ctx.wpc_ensure_ok then
      let r := ctx.attempts s.idx
      let tr := s.trace ++ [⟨wpcRetryCmd ctx, r⟩]
      if r.returncode = 0 then ⟨0, tr, 1, s.fired ++ [4]⟩
      else stageD ctx ⟨r, tr, s.idx + 1, s.wpc_retried, s.fired ++ [4]⟩
    else stageD ctx { s with fired := s.fired ++ [4] }
  else stageD ctx s

/-- Ladder rule 3 (source lines 906-918): browser-verification-pending
failure pauses and retries once with the browser-provider command. -/
def stageB (ctx : Ctx) (s : LState) : Outcome :=
  if ctx.use_po_token && has_wpc_error s.result then
    let r := ctx.attempts s.idx
    let tr := s.trace ++ [⟨wpcRetryCmd ctx, r⟩]
    if r.returncode = 0 then ⟨0, tr, 1, s.fired ++ [3]⟩
    else stageC ctx ⟨r, tr, s.idx + 1, true, s.fired ++ [3]⟩
  else stageC ctx s

/-- Ladder rule 2 (source lines 892-904, nested in rule 1): if the token
failure persists, switch to the browser provider and retry once, setting
`wpc_retried`. -/
def stageAinner (ctx : Ctx) (s : LState) : Outcome :=
  if has_pot_error s.result then
    if ctx.wpc_ensure_ok then
      let r := ctx.attempts s.idx
      let tr := s.trace ++ [⟨wpcRetryCmd ctx, r⟩]
      if r.returncode = 0 then ⟨0, tr, 1, s.fired ++ [2]⟩
      else stageB ctx ⟨r, tr, s.idx + 1, true, s.fired ++ [2]⟩
    else stageB ctx { s with fired := s.fired ++ [2] }
  else stageB ctx s

/-- Ladder rule 1 (source lines 881-891): container-backed token failure
restarts the provider and retries once with the fallback client, then
escalates to rule 2 on a persisting token failure. -/
def stageA (ctx : Ctx) (s : LState) : Outcome :=
  if ctx.use_po_token && ctx.provider_bgutil && has_pot_error s.result then
    if ctx.restart_ok then
      let retry_cmd := with_player_client ctx.cmd (or_default ctx.retry_client "mweb")
      let r := ctx.attempts s.idx
      let tr := s.trace ++ [⟨retry_cmd, r⟩]
      if r.returncode = 0 then ⟨0, tr, 1, s.fired ++ [1]⟩
      else stageAinner ctx ⟨r, tr, s.idx + 1, s.wpc_retried, s.fired ++ [1]⟩
    else stageAinner ctx { s with fired := s.fired ++ [1] }
  else stageB ctx s

/-- The quality defaulting at source lines 815-816: a plain video download
with no explicit format or quality falls back to the "best" preset. -/
def eff_quality (a : Args) : Option String :=
  if !truthy a.format_spec && !truthy a.quality && !a.audio_only then some "best" else a.quality

/-- Exit code of `print_video_info` (info-only mode), with the oEmbed
fallback outcome supplied by the oracle. -/
def print_video_info_exit (r : AttemptResult) (oembed_ok : Bool) : Int :=
  if r.returncode ≠ 0 then if oembed_ok then 0 else r.returncode
  else
    let first_line := if r.stdout.isEmpty then "" else (r.stdout.trim.splitOn "\n").headD ""
    if first_line.isEmpty then 1 else 0

/-- The command completion at source lines 826-871: output template,
audio/format selection, subtitles, merge container, URL, and the WPC
browser-path argument when a browser-backed provider is in use. -/
def build_full_cmd (env : Env) (a : Args) (cmd5 : List String) (format_spec1 : Option String)
    (provider_type : Option ProviderType) (wpc_browser_path1 : Option String) : List String :=
  let cmd6 := cmd5 ++ ["-o", env.resolved_template]
  let cmd7 :=
    if a.audio_only then cmd6 ++ ["-x", "--audio-format", "mp3"]
    else if truthy format_spec1 then cmd6 ++ ["-f", format_spec1.getD ""]
    else cmd6
  let cmd8 :=
    if a.subtitles then cmd7 ++ ["--write-subs", "--write-auto-subs", "--sub-lang", a.subtitle_lang]
    else cmd7
  let cmd9 :=
    if truthy a.merge_format then cmd8 ++ ["--merge-output-format", a.merge_format.getD ""]
    else cmd8
  let cmd10 := cmd9 ++ [a.url]
  if (provider_type == some ProviderType.wpc) && truthy wpc_browser_path1 then
    with_wpc_browser cmd10 wpc_browser_path1
  else cmd10

/-- The session context the escalation ladder runs under. -/
def mkCtx (env : Env) (a : Args) (cmd5 : List String) (quality1 : Option String)
    (format_spec1 : Option String) (format_from_quality : Bool)
    (po_token_client : Option String) (provider_type : Option ProviderType)
    (use_po_token : Bool) (wpc_browser_path1 : Option String) : Ctx :=
  { attempts := env.attempts
    cmd := build_full_cmd env a cmd5 format_spec1 provider_type wpc_browser_path1
    retry_client := if truthy a.player_client then a.player_client else po_token_client
    wpc_browser_path := wpc_browser_path1
    use_po_token := use_po_token
    provider_bgutil := provider_type == some ProviderType.bgutil
    restart_ok := env.restart_ok
    wpc_ensure_ok := env.wpc_ensure_ok
    cookies_from_browser := truthy a.cookies_from_browser
    player_client := truthy a.player_client
    audio_only := a.audio_only
    format_from_quality := format_from_quality
    quality := quality1 }

/-- The download path of `download_video` after all configuration checks
passed (source lines 826-965): finish building the command, run the first
attempt, and on failure enter the escalation ladder at rule 1. -/
def download_run (env : Env) (a : Args) (cmd5 : List String) (quality1 : Option String)
    (format_spec1 : Option String) (format_from_quality : Bool)
    (po_token_client : Option String) (provider_type : Option ProviderType)
    (use_po_token : Bool) (wpc_browser_path1 : Option String) : Outcome :=
  let cmd11 := build_full_cmd env a cmd5 format_spec1 provider_type wpc_browser_path1
  let ctx := mkCtx env a cmd5 quality1 format_spec1 format_from_quality po_token_client
    provider_type use_po_token wpc_browser_path1
  let r0 := env.attempts 0
  if r0.returncode = 0 then ⟨0, [⟨cmd11, r0⟩], 1, []⟩
  else stageA ctx ⟨r0, [⟨cmd11, r0⟩], 1, false, []⟩

/-- The proxy resolution of `get_proxy_settings`: an explicit `--proxy`
argument wins, else the first truthy proxy environment variable. -/
def proxy_value (env : Env) (a : Args) : Option String :=
  if truthy a.proxy then a.proxy else env.env_proxy

/-- The PO-token player client selected at source lines 781-786:
`web_safari` for cookie-backed sessions, else `mweb`. -/
def po_client (a : Args) (use_po_token : Bool) : Option String :=
  if use_po_token then
    if truthy a.cookies_from_browser || truthy a.cookies_file then some "web_safari"
    else some "mweb"
  else none

/-- The browser-path defaulting at source line 758: fall back to the
discovered Chrome path when PO tokens are in use. -/
def wpc_bp (env : Env) (a : Args) (use_po_token : Bool) : Option String :=
  if !truthy a.wpc_browser_path && use_po_token then env.chrome_path else a.wpc_browser_path

/-- The command prefix built at source lines 739-793: base binary, android
workaround, cookie source, proxy, player client, playlist restriction. -/
def build_cmd5 (env : Env) (a : Args) (use_po_token : Bool) : List String :=
  let use_android := a.use_android_client &&
    !(use_po_token || truthy a.cookies_from_browser || truthy a.cookies_file || truthy a.player_client)
  let cmd1 :=
    if use_android then ["yt-dlp", "--extractor-args", "youtube:player_client=android"]
    else ["yt-dlp"]
  let cmd2 :=
    if truthy a.cookies_from_browser then cmd1 ++ ["--cookies-from-browser", a.cookies_from_browser.getD ""]
    else if truthy a.cookies_file then cmd1 ++ ["--cookies", a.cookies_file.getD ""]
    else cmd1
  let cmd3 := if truthy (proxy_value env a) then cmd2 ++ ["--proxy", (proxy_value env a).getD ""] else cmd2
  let cmd4 :=
    if truthy a.player_client then
      cmd3 ++ ["--extractor-args", "youtube:player_client=" ++ a.player_client.getD ""]
    else if truthy (po_client a use_po_token) then
      cmd3 ++ ["--extractor-args", "youtube:player_client=" ++ (po_client a use_po_token).getD ""]
    else cmd3
  if !a.allow_playlist then cmd4 ++ ["--no-playlist"] else cmd4

/-- `download_video` from the source: tool check, configuration
validation, provider setup, command construction, the list-formats and
info-only side modes, and the download path with the escalation ladder. -/
def download_video (env : Env) (a : Args) : Outcome :=
  if !env.yt_dlp_installed then ⟨1, [], 0, []⟩
  else if truthy a.cookies_from_browser && truthy a.cookies_file then ⟨2, [], 0, []⟩
  else if (a.auto_po_token && !a.info_only) && (env.provider).isNone then ⟨2, [], 0, []⟩
  else if a.list_formats then
    ⟨(env.attempts 0).returncode,
      [⟨build_cmd5 env a (a.auto_po_token && !a.info_only) ++ ["-F", a.url], env.attempts 0⟩],
      0, []⟩
  else if a.info_only then
    ⟨print_video_info_exit (env.attempts 0) env.oembed_ok,
      [⟨build_cmd5 env a (a.auto_po_token && !a.info_only) ++
        ["--skip-download", "--dump-json", "--no-playlist", a.url], env.attempts 0⟩],
      0, []⟩
  else if truthy a.format_spec && truthy a.quality then ⟨2, [], 0, []⟩
  else if truthy (eff_quality a) then
    match QUALITY_PRESETS ((eff_quality a).getD "") with
    | none => ⟨2, [], 0, []⟩
    | some fs =>
      download_run env a (build_cmd5 env a (a.auto_po_token && !a.info_only)) (eff_quality a)
        (some fs) true (po_client a (a.auto_po_token && !a.info_only))
        (if a.auto_po_token && !a.info_only then env.provider else none)
        (a.auto_po_token && !a.info_only) (wpc_bp env a (a.auto_po_token && !a.info_only))
  else
    download_run env a (build_cmd5 env a (a.auto_po_token && !a.info_only)) (eff_quality a)
      a.format_spec false (po_client a (a.auto_po_token && !a.info_only))
      (if a.auto_po_token && !a.info_only then env.provider else none)
      (a.auto_po_token && !a.info_only) (wpc_bp env a (a.auto_po_token && !a.info_only))

/-- Spec-side predicate: the quality preset is a digit string followed by
`p` (e.g. `720p`). -/
def numeric_preset (s : String) : Bool :=
  (s.data.getLast? == some 'p') && isdigitStr s.data.dropLast

/-- No invocation in the list exited with code 0. -/
def noSuccess (l : List Invocation) : Prop := ∀ inv ∈ l, inv.result.returncode ≠ 0

/-- The latest result held by the ladder state is the result of the last
invocation of its trace. -/
def lastResultOk (s : LState) : Prop :=
  s.trace.getLast?.map (fun i => i.result) = some s.result

/-- Behavioural summary of a ladder stage run from state `s`: the engaged
rules extend `s.fired` by a sublist of `tags` (so rules fire in ladder
order, at most once each); the invocation trace only grows; if no attempt
succeeded, the finalizer never ran and the exit code is the last attempt's
exit code; and any successful attempt is the final invocation, yields exit
code 0, and runs the finalizer exactly once. -/
def StageOK (s : LState) (tags : List Nat) (out : Outcome) : Prop :=
  (∃ u, out.fired = s.fired ++ u ∧ List.Sublist u tags) ∧
  (∃ t, out.invocations = s.trace ++ t) ∧
  (noSuccess out.invocations →
    out.finalizes = 0 ∧
      out.invocations.getLast?.map (fun i => i.result.returncode) = some out.exit) ∧
  (∀ inv ∈ out.invocations, inv.result.returncode = 0 →
    out.exit = 0 ∧ out.finalizes = 1 ∧ out.invocations.getLast? = some inv)

/-- Behavioural summary of a whole download session that entered the
retry engine. -/
def RunOK (out : Outcome) : Prop :=
  List.Sublist out.fired [1, 2, 3, 4, 5, 6] ∧
  (noSuccess out.invocations →
    out.finalizes = 0 ∧
      out.invocations.getLast?.map (fun i => i.result.returncode) = some out.exit) ∧
  (∀ inv ∈ out.invocations, inv.result.returncode = 0 →
    out.exit = 0 ∧ out.finalizes = 1 ∧ out.invocations.getLast? = some inv)

/-- A default argument record matching `main`'s defaults: plain video
download of a URL, PO-token auto-start on, android-client workaround on. -/
def baseArgs : Args :=
  { url := "https://youtu.be/x"
    format_spec := none
    quality := none
    merge_format := some "mp4"
    subtitles := false
    subtitle_lang := "en"
    cookies_from_browser := none
    cookies_file := none
    player_client := none
    auto_po_token := true
    proxy := none
    wpc_browser_path := none
    allow_playlist := false
    use_android_client := true
    audio_only := false
    list_formats := false
    info_only := false }

/-- A default oracle: `yt-dlp` installed, no provider, every attempt
fails with exit code 1 and empty output. -/
def baseEnv : Env :=
  { yt_dlp_installed := true
    provider := none
    chrome_path := none
    restart_ok := false
    wpc_ensure_ok := false
    env_proxy := none
    resolved_template := "/out/video.file"
    oembed_ok := false
    attempts := fun _ => { returncode := 1, stdout := "", stderr := "" } }

/-- C1 counterexample input: browser-cookie session (PO tokens off), first
attempt fails with a 403, the `web_safari` retry fails with exit code 1,
and the format-fallback retry fails with exit code 5. -/
def argsC1 : Args := { baseArgs with
  cookies_from_browser := some "chrome"
  auto_po_token := false }

/-- Oracle for the C1 counterexample. -/
def envC1 : Env := { baseEnv with attempts := fun n =>
  if n = 0 then { returncode := 1, stdout := "ERROR: HTTP Error 403: Forbidden", stderr := "" }
  else if n = 1 then { returncode := 1, stdout := "", stderr := "" }
  else { returncode := 5, stdout := "", stderr := "" } }

/-- C2 counterexample input: default video session (PO tokens off), first
attempt fails with output matching no classifier signature. -/
def argsC2 : Args := { baseArgs with auto_po_token := false }

/-- Oracle for the C2 counterexample: unclassifiable failure, then a retry
failing with exit code 3. -/
def envC2 : Env := { baseEnv with attempts := fun n =>
  if n = 0 then { returncode := 1, stdout := "network unreachable", stderr := "" }
  else { returncode := 3, stdout := "", stderr := "" } }

/-- C3 counterexample input: list-formats invocation carrying both an
explicit format spec and a quality preset. -/
def argsC3 : Args := { baseArgs with
  list_formats := true
  auto_po_token := false
  format_spec := some "bestvideo+bestaudio/best"
  quality := some "720p" }

/-- Oracle for the C3 counterexample: the listing subprocess succeeds. -/
def envC3 : Env := { baseEnv with
  attempts := fun _ => { returncode := 0, stdout := "formats", stderr := "" } }

/-- C7 counterexample input: cookie-file session (audio-only, PO tokens
off) whose only attempt fails with a 403-classified output. -/
def argsC7 : Args := { baseArgs with
  cookies_file := some "cookies.txt"
  audio_only := true
  auto_po_token := false }

/-- Oracle for the C7 counterexample. -/
def envC7 : Env := { baseEnv with attempts := fun n =>
  if n = 0 then { returncode := 1, stdout := "HTTP Error 403: Forbidden", stderr := "" }
  else { returncode := 1, stdout := "", stderr := "" } }

/-- Witness input for the amended C2: audio-only session (PO tokens off)
with an unclassifiable failure. -/
def argsW2 : Args := { baseArgs with
  auto_po_token := false
  audio_only := true }

/-- Oracle for the amended-C2 witness. -/
def envW2 : Env := { baseEnv with
  attempts := fun _ => { returncode := 1, stdout := "boom", stderr := "" } }

/-- Witness input for the amended C7: browser-cookie session (PO tokens
off); first attempt fails with a 403, the `web_safari` retry succeeds. -/
def argsW7 : Args := { baseArgs with
  cookies_from_browser := some "chrome"
  auto_po_token := false }

/-- Oracle for the amended-C7 witness. -/
def envW7 : Env := { baseEnv with attempts := fun n =>
  if n = 0 then { returncode := 1, stdout := "http error 403", stderr := "" }
  else { returncode := 0, stdout := "", stderr := "" } }

/-- Witness oracle for C8: the first attempt succeeds. -/
def envW8 : Env := { baseEnv with
  attempts := fun _ => { returncode := 0, stdout := "done", stderr := "" } }

/-- Witness attempt result for C5: stderr carries a mixed-case 403
signature. -/
def rW5 : AttemptResult :=
  { returncode := 1, stdout := "", stderr := "ERROR: HTTP Error 403: Forbidden" }

/-! ## Classifier, version, selector and command-rebuild theorems -/

/-- **C4.** For every attempt result, the token-verification-failure
classifier returns true if and only if the lower-cased concatenation of
its stdout and stderr contains both the substring "pot" and the substring
"error" (unanchored, no token-boundary requirement). -/
theorem C4_has_pot_error_iff (r : AttemptResult) :
    has_pot_error r = true ↔
      ("pot".data <:+: (combined_lower r).data ∧ "error".data <:+: (combined_lower r).data) := by
  simp [has_pot_error, py_in]

/-- **C5.** For every attempt result, the forbidden-access classifier
returns true if and only if the lower-cased concatenation of its stdout
and stderr contains "http error 403", "403: forbidden", or
"fragment 1 not found"; in particular any output containing
"HTTP Error 403" in any letter case (i.e. any string whose lower-casing is
"http error 403") is classified as forbidden access. -/
theorem C5_has_403_error_iff (r : AttemptResult) :
    (has_403_error r = true ↔
      ("http error 403".data <:+: (combined_lower r).data ∨
        "403: forbidden".data <:+: (combined_lower r).data ∨
        "fragment 1 not found".data <:+: (combined_lower r).data)) ∧
    (∀ u : String, u.data.map Char.toLower = "http error 403".data →
      u.data <:+: (r.stdout ++ r.stderr).data → has_403_error r = true) := by
  constructor
  · simp [has_403_error, py_in, or_assoc]
  · intro u hmap hinf
    obtain ⟨s, t, hst⟩ := hinf
    have h1 : "http error 403".data <:+: (combined_lower r).data := by
      refine ⟨s.map Char.toLower, t.map Char.toLower, ?_⟩
      have h2 : (combined_lower r).data = (r.stdout ++ r.stderr).data.map Char.toLower := rfl
      rw [h2, ← hst, ← hmap]
      simp
    simp [has_403_error, py_in, h1]

/-- Witness for C5: the concrete attempt `rW5` carries a mixed-case
"HTTP Error 403" in stderr and is classified as forbidden access. -/
theorem C5_has_403_error_iff_witness :
    "HTTP Error 403".data.map Char.toLower = "http error 403".data ∧
    "HTTP Error 403".data <:+: (rW5.stdout ++ rW5.stderr).data ∧
    has_403_error rW5 = true :=
  ⟨by decide, by decide,
    (C5_has_403_error_iff rW5).2 "HTTP Error 403" (by decide) (by decide)⟩

/-- **C6.** `version_at_least` compares dot-separated version strings
component-wise as integers with the shorter list zero-padded: it returns
false for ("2025.05.21", "2025.05.22"), true for
("2025.05.22", "2025.05.22"), and true for ("2025.6", "2025.05.22"). -/
theorem C6_version_at_least_cases :
    version_at_least "2025.05.21" "2025.05.22" = false ∧
    version_at_least "2025.05.22" "2025.05.22" = true ∧
    version_at_least "2025.6" "2025.05.22" = true := by
  refine ⟨?_, ?_, ?_⟩ <;> decide

/-- **C9.** `fallback_format_for_quality` maps a numeric preset "Np" to
the non-m3u8 selector capped at height N (mp4 preferred, then any
non-m3u8 capped at N, then any non-m3u8), and maps `none`, "best", and any
non-numeric preset to the unrestricted non-m3u8 best-available selector. -/
theorem C9_fallback_format_characterization (q : Option String) :
    fallback_format_for_quality q =
      match q with
      | none => "best[protocol!*=m3u8][ext=mp4]/best[protocol!*=m3u8]/best"
      | some s =>
        if numeric_preset s then
          "best[height<=" ++ String.mk s.data.dropLast ++ "][protocol!*=m3u8][ext=mp4]/" ++
            "best[height<=" ++ String.mk s.data.dropLast ++ "][protocol!*=m3u8]/best[protocol!*=m3u8]"
        else "best[protocol!*=m3u8][ext=mp4]/best[protocol!*=m3u8]/best" := by
  match q with
  | none => rfl
  | some s =>
    by_cases hb : s = "best"
    · subst hb; rfl
    · by_cases he : s = ""
      · subst he; rfl
      · have he' : s.isEmpty = false := by
          rw [Bool.eq_false_iff]
          intro h
          exact he ((String.isEmpty_iff s).mp h)
        have h1 : (some s == some "best") = false := by
          simp [hb]
        simp [fallback_format_for_quality, truthy, he', h1, numeric_preset]

theorem strip_extractor_args_sublist : ∀ l : List String, List.Sublist (strip_extractor_args l) l
  | [] => by simp [strip_extractor_args]
  | [t] => by
    by_cases h : t = "--extractor-args"
    · simp [strip_extractor_args, h]
    · simp only [strip_extractor_args, if_neg h]
      exact List.Sublist.refl [t]
  | t :: v :: rest => by
    by_cases h : t = "--extractor-args"
    · simp only [strip_extractor_args, if_pos h]
      exact ((strip_extractor_args_sublist rest).trans
        (List.sublist_cons_self v rest)).trans (List.sublist_cons_self t (v :: rest))
    · simp only [strip_extractor_args, if_neg h]
      exact List.Sublist.cons₂ t (strip_extractor_args_sublist (v :: rest))

theorem strip_extractor_args_not_mem :
    ∀ l : List String, "--extractor-args" ∉ strip_extractor_args l
  | [] => by simp [strip_extractor_args]
  | [t] => by
    by_cases h : t = "--extractor-args"
    · simp [strip_extractor_args, h]
    · simp only [strip_extractor_args, if_neg h, List.mem_singleton]
      exact fun hh => h hh.symm
  | t :: v :: rest => by
    by_cases h : t = "--extractor-args"
    · simp only [strip_extractor_args, if_pos h]
      exact strip_extractor_args_not_mem rest
    · simp only [strip_extractor_args, if_neg h, List.mem_cons, not_or]
      exact ⟨fun hh => h hh.symm, strip_extractor_args_not_mem (v :: rest)⟩

theorem strip_extractor_args_id :
    ∀ l : List String, "--extractor-args" ∉ l → strip_extractor_args l = l
  | [], _ => rfl
  | [t], h => by
    have ht : ¬t = "--extractor-args" := fun e => h (by simp [e])
    simp [strip_extractor_args, if_neg ht]
  | t :: v :: rest, h => by
    have ht : ¬t = "--extractor-args" := fun e => h (by simp [e])
    simp only [strip_extractor_args, if_neg ht, List.cons.injEq, true_and]
    exact strip_extractor_args_id (v :: rest) fun hm => h (List.mem_cons_of_mem _ hm)

/-- **C10.** `with_player_client` removes every `--extractor-args` token
together with its immediately following value token (all occurrences),
keeps the remaining tokens in their original order (a sublist of the
input, unchanged when no `--extractor-args` was present), and appends
exactly one `--extractor-args youtube:player_client=<client>` pair, so the
rebuilt command carries exactly one `--extractor-args` token. -/
theorem C10_with_player_client_spec (cmd : List String) (client : String) :
    with_player_client cmd client =
      strip_extractor_args cmd ++ ["--extractor-args", "youtube:player_client=" ++ client] ∧
    List.Sublist (strip_extractor_args cmd) cmd ∧
    "--extractor-args" ∉ strip_extractor_args cmd ∧
    ("--extractor-args" ∉ cmd → strip_extractor_args cmd = cmd) ∧
    (with_player_client cmd client).count "--extractor-args" = 1 := by
  refine ⟨rfl, strip_extractor_args_sublist cmd, strip_extractor_args_not_mem cmd,
    strip_extractor_args_id cmd, ?_⟩
  have hne : ¬("youtube:player_client=" ++ client) = "--extractor-args" := by
    intro h
    have hd : ("youtube:player_client=" ++ client).data.head? = "--extractor-args".data.head? :=
      congrArg (fun s => s.data.head?) h
    have ha : ("youtube:player_client=" ++ client).data = "youtube:player_client=".data ++ client.data := rfl
    rw [ha, List.head?_append] at hd
    simp at hd
  rw [with_player_client, List.count_append]
  have h0 : (strip_extractor_args cmd).count "--extractor-args" = 0 :=
    List.count_eq_zero.mpr (strip_extractor_args_not_mem cmd)
  rw [h0]
  simp [List.count_cons, hne]

/-- Witness for C10 at a concrete command and client. -/
theorem C10_with_player_client_spec_witness :
    "--extractor-args" ∉ (["yt-dlp", "--no-playlist", "u"] : List String) ∧
    (with_player_client ["yt-dlp", "--no-playlist", "u"] "mweb" =
      strip_extractor_args ["yt-dlp", "--no-playlist", "u"] ++
        ["--extractor-args", "youtube:player_client=" ++ "mweb"] ∧
    List.Sublist (strip_extractor_args ["yt-dlp", "--no-playlist", "u"])
      ["yt-dlp", "--no-playlist", "u"] ∧
    "--extractor-args" ∉ strip_extractor_args ["yt-dlp", "--no-playlist", "u"] ∧
    ("--extractor-args" ∉ (["yt-dlp", "--no-playlist", "u"] : List String) →
      strip_extractor_args ["yt-dlp", "--no-playlist", "u"] = ["yt-dlp", "--no-playlist", "u"]) ∧
    (with_player_client ["yt-dlp", "--no-playlist", "u"] "mweb").count "--extractor-args" = 1) :=
  ⟨by decide, C10_with_player_client_spec ["yt-dlp", "--no-playlist", "u"] "mweb"⟩

/-! ## Ladder stage lemmas -/

theorem lastResultOk_rc {s : LState} (h : lastResultOk s) :
    s.trace.getLast?.map (fun i => i.result.returncode) = some s.result.returncode := by
  unfold lastResultOk at h
  cases e : s.trace.getLast? with
  | none => rw [e] at h; simp at h
  | some i =>
    rw [e] at h
    simp at h
    simp [h]

theorem stageOK_mono {s : LState} {tags tags' : List Nat} {out : Outcome}
    (h : StageOK s tags out) (hsub : List.Sublist tags tags') : StageOK s tags' out := by
  obtain ⟨⟨u, hu, hus⟩, hb, hc, hd⟩ := h
  exact ⟨⟨u, hu, hus.trans hsub⟩, hb, hc, hd⟩

theorem stageOK_fired_shift {s : LState} {tag : Nat} {tags' : List Nat} {out : Outcome}
    (h : StageOK { s with fired := s.fired ++ [tag] } tags' out) :
    StageOK s (tag :: tags') out := by
  obtain ⟨⟨u, hu, hus⟩, hb, hc, hd⟩ := h
  refine ⟨⟨tag :: u, ?_, List.Sublist.cons₂ tag hus⟩, hb, hc, hd⟩
  rw [hu]; simp

theorem stage_step (ctx : Ctx) (s : LState) (tag : Nat) (tags' : List Nat)
    (retry_cmd : List String) (wr : Bool) (g : Ctx → LState → Outcome)
    (hg : ∀ s', lastResultOk s' → noSuccess s'.trace → StageOK s' tags' (g ctx s'))
    (_hlast : lastResultOk s) (hns : noSuccess s.trace) :
    StageOK s (tag :: tags')
      (if (ctx.attempts s.idx).returncode = 0 then
        ⟨0, s.trace ++ [⟨retry_cmd, ctx.attempts s.idx⟩], 1, s.fired ++ [tag]⟩
      else g ctx ⟨ctx.attempts s.idx, s.trace ++ [⟨retry_cmd, ctx.attempts s.idx⟩],
        s.idx + 1, wr, s.fired ++ [tag]⟩) := by
  split
  next h0 =>
    refine ⟨⟨[tag], rfl, List.Sublist.cons₂ tag (List.nil_sublist tags')⟩,
      ⟨[⟨retry_cmd, ctx.attempts s.idx⟩], rfl⟩, ?_, ?_⟩
    · intro hns2
      exact absurd h0 (hns2 ⟨retry_cmd, ctx.attempts s.idx⟩ (by simp))
    · intro inv hmem h0'
      rcases List.mem_append.mp hmem with hm | hm
      · exact absurd h0' (hns inv hm)
      · have he : inv = ⟨retry_cmd, ctx.attempts s.idx⟩ := by simpa using hm
        subst he
        exact ⟨rfl, rfl, List.getLast?_concat _⟩
  next h0 =>
    have hlast' : lastResultOk ⟨ctx.attempts s.idx,
        s.trace ++ [⟨retry_cmd, ctx.attempts s.idx⟩], s.idx + 1, wr, s.fired ++ [tag]⟩ := by
      simp [lastResultOk, List.getLast?_concat]
    have hns' : noSuccess (s.trace ++ [⟨retry_cmd, ctx.attempts s.idx⟩]) := by
      intro inv hmem
      rcases List.mem_append.mp hmem with hm | hm
      · exact hns inv hm
      · have he : inv = ⟨retry_cmd, ctx.attempts s.idx⟩ := by simpa using hm
        subst he
        exact h0
    obtain ⟨⟨u, hu, hus⟩, ⟨t, ht⟩, hc, hd⟩ := hg _ hlast' hns'
    refine ⟨⟨tag :: u, ?_, List.Sublist.cons₂ tag hus⟩,
      ⟨⟨retry_cmd, ctx.attempts s.idx⟩ :: t, ?_⟩, hc, hd⟩
    · rw [hu]; simp
    · rw [ht]; simp

theorem stage_last (ctx : Ctx) (s : LState) (tag : Nat) (retry_cmd : List String)
    (hns : noSuccess s.trace) :
    StageOK s [tag]
      (if (ctx.attempts s.idx).returncode = 0 then
        ⟨0, s.trace ++ [⟨retry_cmd, ctx.attempts s.idx⟩], 1, s.fired ++ [tag]⟩
      else ⟨(ctx.attempts s.idx).returncode,
        s.trace ++ [⟨retry_cmd, ctx.attempts s.idx⟩], 0, s.fired ++ [tag]⟩) := by
  split
  next h0 =>
    refine ⟨⟨[tag], rfl, List.Sublist.refl _⟩, ⟨[⟨retry_cmd, ctx.attempts s.idx⟩], rfl⟩, ?_, ?_⟩
    · intro hns2
      exact absurd h0 (hns2 ⟨retry_cmd, ctx.attempts s.idx⟩ (by simp))
    · intro inv hmem h0'
      rcases List.mem_append.mp hmem with hm | hm
      · exact absurd h0' (hns inv hm)
      · have he : inv = ⟨retry_cmd, ctx.attempts s.idx⟩ := by simpa using hm
        subst he
        exact ⟨rfl, rfl, List.getLast?_concat _⟩
  next h0 =>
    refine ⟨⟨[tag], rfl, List.Sublist.refl _⟩, ⟨[⟨retry_cmd, ctx.attempts s.idx⟩], rfl⟩, ?_, ?_⟩
    · intro _
      exact ⟨rfl, by simp [List.getLast?_concat]⟩
    · intro inv hmem h0'
      rcases List.mem_append.mp hmem with hm | hm
      · exact absurd h0' (hns inv hm)
      · have he : inv = ⟨retry_cmd, ctx.attempts s.idx⟩ := by simpa using hm
        subst he
        exact absurd h0' h0

theorem stageE_ok (ctx : Ctx) (s : LState) (hlast : lastResultOk s) (hns : noSuccess s.trace) :
    StageOK s [6] (stageE ctx s) := by
  simp only [stageE]
  split
  next hg =>
    exact stage_last ctx s 6
      (replace_format_arg ctx.cmd (fallback_format_for_quality ctx.quality)) hns
  next hg =>
    refine ⟨⟨[], by simp, List.nil_sublist _⟩, ⟨[], by simp⟩, ?_, ?_⟩
    · intro _
      exact ⟨rfl, lastResultOk_rc hlast⟩
    · intro inv hmem h0'
      exact absurd h0' (hns inv hmem)

theorem stageD_ok (ctx : Ctx) (s : LState) (hlast : lastResultOk s) (hns : noSuccess s.trace) :
    StageOK s [5, 6] (stageD ctx s) := by
  simp only [stageD]
  split
  next hg =>
    exact stage_step ctx s 5 [6] (with_player_client ctx.cmd "web_safari") s.wpc_retried stageE
      (fun s' h1 h2 => stageE_ok ctx s' h1 h2) hlast hns
  next hg =>
    exact stageOK_mono (stageE_ok ctx s hlast hns) (List.sublist_cons_self 5 [6])

theorem stageC_ok (ctx : Ctx) (s : LState) (hlast : lastResultOk s) (hns : noSuccess s.trace) :
    StageOK s [4, 5, 6] (stageC ctx s) := by
  simp only [stageC]
  split
  next hg =>
    split
    next hw =>
      exact stage_step ctx s 4 [5, 6] (wpcRetryCmd ctx) s.wpc_retried stageD
        (fun s' h1 h2 => stageD_ok ctx s' h1 h2) hlast hns
    next hw =>
      exact stageOK_fired_shift (stageD_ok ctx { s with fired := s.fired ++ [4] } hlast hns)
  next hg =>
    exact stageOK_mono (stageD_ok ctx s hlast hns) (List.sublist_cons_self 4 [5, 6])

theorem stageB_ok (ctx : Ctx) (s : LState) (hlast : lastResultOk s) (hns : noSuccess s.trace) :
    StageOK s [3, 4, 5, 6] (stageB ctx s) := by
  simp only [stageB]
  split
  next hg =>
    exact stage_step ctx s 3 [4, 5, 6] (wpcRetryCmd ctx) true stageC
      (fun s' h1 h2 => stageC_ok ctx s' h1 h2) hlast hns
  next hg =>
    exact stageOK_mono (stageC_ok ctx s hlast hns) (List.sublist_cons_self 3 [4, 5, 6])

theorem stageAinner_ok (ctx : Ctx) (s : LState) (hlast : lastResultOk s)
    (hns : noSuccess s.trace) : StageOK s [2, 3, 4, 5, 6] (stageAinner ctx s) := by
  simp only [stageAinner]
  split
  next hg =>
    split
    next hw =>
      exact stage_step ctx s 2 [3, 4, 5, 6] (wpcRetryCmd ctx) true stageB
        (fun s' h1 h2 => stageB_ok ctx s' h1 h2) hlast hns
    next hw =>
      exact stageOK_fired_shift (stageB_ok ctx { s with fired := s.fired ++ [2] } hlast hns)
  next hg =>
    exact stageOK_mono (stageB_ok ctx s hlast hns) (List.sublist_cons_self 2 [3, 4, 5, 6])

theorem stageA_ok (ctx : Ctx) (s : LState) (hlast : lastResultOk s) (hns : noSuccess s.trace) :
    StageOK s [1, 2, 3, 4, 5, 6] (stageA ctx s) := by
  simp only [stageA]
  split
  next hg =>
    split
    next hr =>
      exact stage_step ctx s 1 [2, 3, 4, 5, 6]
        (with_player_client ctx.cmd (or_default ctx.retry_client "mweb")) s.wpc_retried
        stageAinner (fun s' h1 h2 => stageAinner_ok ctx s' h1 h2) hlast hns
    next hr =>
      exact stageOK_fired_shift (stageAinner_ok ctx { s with fired := s.fired ++ [1] } hlast hns)
  next hg =>
    exact stageOK_mono (stageB_ok ctx s hlast hns)
      ((List.sublist_cons_self 2 [3, 4, 5, 6]).trans (List.sublist_cons_self 1 [2, 3, 4, 5, 6]))

theorem ladder_ok (ctx : Ctx) (c : List String) (r0 : AttemptResult)
    (h0 : ¬r0.returncode = 0) : RunOK (stageA ctx ⟨r0, [⟨c, r0⟩], 1, false, []⟩) := by
  obtain ⟨⟨u, hu, hus⟩, _, hc, hd⟩ :=
    stageA_ok ctx ⟨r0, [⟨c, r0⟩], 1, false, []⟩ (by simp [lastResultOk])
      (by intro inv hm; simp at hm; subst hm; exact h0)
  exact ⟨by rw [hu]; simpa using hus, hc, hd⟩

theorem download_run_ok (env : Env) (a : Args) (cmd5 : List String) (quality1 : Option String)
    (fs1 : Option String) (ffq : Bool) (ptc : Option String) (pt : Option ProviderType)
    (upt : Bool) (wbp : Option String) :
    RunOK (download_run env a cmd5 quality1 fs1 ffq ptc pt upt wbp) := by
  simp only [download_run]
  split
  next h0 =>
    refine ⟨List.nil_sublist _, ?_, ?_⟩
    · intro hns2
      exact absurd h0 (hns2 _ (List.mem_singleton.mpr rfl))
    · intro inv hmem h0'
      have he : inv = _ := List.mem_singleton.mp hmem
      subst he
      exact ⟨rfl, rfl, by simp⟩
  next h0 =>
    exact ladder_ok _ _ _ h0

/-! ## Session-level theorems: the retry engine -/

/-- Master behavioural lemma: a session either exits before the engine runs
(no invocation, no rule engaged), or satisfies the engine summary `RunOK`. -/
theorem download_video_ok (env : Env) (a : Args)
    (hl : a.list_formats = false) (hi : a.info_only = false) :
    ((download_video env a).invocations = [] ∧ (download_video env a).fired = []) ∨
      RunOK (download_video env a) := by
  simp only [download_video]
  split
  · exact Or.inl ⟨rfl, rfl⟩
  · split
    · exact Or.inl ⟨rfl, rfl⟩
    · split
      · exact Or.inl ⟨rfl, rfl⟩
      · split
        next h => rw [hl] at h; simp at h
        · split
          next h => rw [hi] at h; simp at h
          · split
            · exact Or.inl ⟨rfl, rfl⟩
            · split
              · split
                · exact Or.inl ⟨rfl, rfl⟩
                · exact Or.inr (download_run_ok _ _ _ _ _ _ _ _ _ _)
              · exact Or.inr (download_run_ok _ _ _ _ _ _ _ _ _ _)

/-- **C8.** For every download session (list-formats and info-only side
modes never enter the retry engine), any attempt (first or retry) that
exits with code 0 immediately ends the session as succeeded with return
value 0, the result finalizer runs exactly once, and that attempt is the
session's final invocation (no later ladder rule executes). -/
theorem C8_success_finalizes_once (env : Env) (a : Args)
    (hl : a.list_formats = false) (hi : a.info_only = false) :
    ∀ inv ∈ (download_video env a).invocations, inv.result.returncode = 0 →
      (download_video env a).exit = 0 ∧ (download_video env a).finalizes = 1 ∧
      (download_video env a).invocations.getLast? = some inv := by
  rcases download_video_ok env a hl hi with ⟨h1, _⟩ | h
  · intro inv hmem
    rw [h1] at hmem
    simp at hmem
  · exact h.2.2

/-- Witness for C8: a default session whose first attempt succeeds. -/
theorem C8_success_finalizes_once_witness :
    argsC2.list_formats = false ∧ argsC2.info_only = false ∧
    (∀ inv ∈ (download_video envW8 argsC2).invocations, inv.result.returncode = 0 →
      (download_video envW8 argsC2).exit = 0 ∧ (download_video envW8 argsC2).finalizes = 1 ∧
      (download_video envW8 argsC2).invocations.getLast? = some inv) :=
  ⟨rfl, rfl, C8_success_finalizes_once envW8 argsC2 rfl rfl⟩

/-- **C1, counterexample.** Browser-cookie session; the first attempt fails
with a 403, rule 5 (the `web_safari` retry) fires and its retry exits 1 -
yet the session is not terminally failed with exit code 1: rule 6 (the
format fallback) fires afterwards and the function returns that second
retry's exit code 5, after three invocations. -/
theorem C1_counterexample :
    truthy argsC1.cookies_from_browser = true ∧ truthy argsC1.player_client = false ∧
    has_403_error (envC1.attempts 0) = true ∧
    ¬(envC1.attempts 0).returncode = 0 ∧ ¬(envC1.attempts 1).returncode = 0 ∧
    (download_video envC1 argsC1).fired = [5, 6] ∧
    (download_video envC1 argsC1).invocations.length = 3 ∧
    (download_video envC1 argsC1).exit = 5 ∧
    ¬(download_video envC1 argsC1).exit = 1 := by
  refine ⟨?_, ?_, ?_, ?_, ?_, ?_, ?_, ?_, ?_⟩ <;> decide

/-- **C1, amended.** In every download session the escalation-ladder rules
engage in strictly increasing order, each at most once per session (the
engaged-rule list is a sublist of `[1,2,3,4,5,6]`); when a rule's retry
also exits non-zero the engine falls through to the remaining rules, and
once no attempt has succeeded the session terminally fails propagating the
exit code of the last attempt performed. -/
theorem C1_amended_ladder (env : Env) (a : Args)
    (hl : a.list_formats = false) (hi : a.info_only = false) :
    List.Sublist (download_video env a).fired [1, 2, 3, 4, 5, 6] ∧
    ((download_video env a).invocations ≠ [] →
      noSuccess (download_video env a).invocations →
      (download_video env a).invocations.getLast?.map (fun i => i.result.returncode) =
        some (download_video env a).exit) := by
  rcases download_video_ok env a hl hi with ⟨h1, h2⟩ | h
  · exact ⟨by rw [h2]; exact List.nil_sublist _, fun hne _ => absurd h1 hne⟩
  · exact ⟨h.1, fun _ hns => (h.2.1 hns).2⟩

/-- Witness for the amended C1 at a concrete failing session. -/
theorem C1_amended_ladder_witness :
    argsC2.list_formats = false ∧ argsC2.info_only = false ∧
    (List.Sublist (download_video baseEnv argsC2).fired [1, 2, 3, 4, 5, 6] ∧
    ((download_video baseEnv argsC2).invocations ≠ [] →
      noSuccess (download_video baseEnv argsC2).invocations →
      (download_video baseEnv argsC2).invocations.getLast?.map (fun i => i.result.returncode) =
        some (download_video baseEnv argsC2).exit)) :=
  ⟨rfl, rfl, C1_amended_ladder baseEnv argsC2 rfl rfl⟩

/-- **C2, counterexample.** A default video session (quality defaulted to
the "best" preset) whose failed attempt matches no classifier signature is
not treated as terminal: the format-fallback rule still issues a retry
(two invocations, rule 6 engaged). -/
theorem C2_counterexample :
    has_403_error (envC2.attempts 0) = false ∧
    has_pot_error (envC2.attempts 0) = false ∧
    has_wpc_error (envC2.attempts 0) = false ∧
    ¬(envC2.attempts 0).returncode = 0 ∧
    (download_video envC2 argsC2).invocations.length = 2 ∧
    (download_video envC2 argsC2).fired = [6] := by
  refine ⟨?_, ?_, ?_, ?_, ?_, ?_⟩ <;> decide

/-- **C3, counterexample.** A list-formats invocation carrying both an
explicit format spec and a quality preset does not return exit code 2: the
mutual-exclusion check is skipped in listing mode insofar that the listing
subprocess runs and its exit code 0 is returned. -/
theorem C3_counterexample :
    truthy argsC3.format_spec = true ∧ truthy argsC3.quality = true ∧
    (download_video envC3 argsC3).exit = 0 ∧ ¬(download_video envC3 argsC3).exit = 2 := by
  refine ⟨?_, ?_, ?_, ?_⟩ <;> decide

/-- **C3, amended.** A missing `yt-dlp` binary exits 1 with no extractor
invocation; both cookie sources together exit 2 with no extractor
invocation; an unresolvable token provider (when token-backed access is
requested) exits 2 before any download attempt; and in download mode (not
list-formats, not info-only) an explicit-format/quality conflict or an
unsupported quality preset exits 2 with no extractor invocation. -/
theorem C3_amended_config_errors (env : Env) (a : Args) :
    (env.yt_dlp_installed = false →
      download_video env a = ⟨1, [], 0, []⟩) ∧
    (env.yt_dlp_installed = true →
      (truthy a.cookies_from_browser && truthy a.cookies_file) = true →
      download_video env a = ⟨2, [], 0, []⟩) ∧
    (env.yt_dlp_installed = true →
      (truthy a.cookies_from_browser && truthy a.cookies_file) = false →
      (a.auto_po_token && !a.info_only) = true → env.provider = none →
      download_video env a = ⟨2, [], 0, []⟩) ∧
    (env.yt_dlp_installed = true →
      (truthy a.cookies_from_browser && truthy a.cookies_file) = false →
      ((a.auto_po_token && !a.info_only) && (env.provider).isNone) = false →
      a.list_formats = false → a.info_only = false →
      (truthy a.format_spec && truthy a.quality) = true →
      download_video env a = ⟨2, [], 0, []⟩) ∧
    (env.yt_dlp_installed = true →
      (truthy a.cookies_from_browser && truthy a.cookies_file) = false →
      ((a.auto_po_token && !a.info_only) && (env.provider).isNone) = false →
      a.list_formats = false → a.info_only = false →
      (truthy a.format_spec && truthy a.quality) = false →
      truthy (eff_quality a) = true →
      QUALITY_PRESETS ((eff_quality a).getD "") = none →
      download_video env a = ⟨2, [], 0, []⟩) := by
  refine ⟨?_, ?_, ?_, ?_, ?_⟩
  · intro h; simp [download_video, h]
  · intro h1 h2; simp [download_video, h1, h2]
  · intro h1 h2 h3 h4; simp [download_video, h1, h2, h3, h4]
  · intro h1 h2 h3 h4 h5 h6; simp [download_video, h1, h2, h3, h4, h5, h6]
  · intro h1 h2 h3 h4 h5 h6 h7 h8; simp [download_video, h1, h2, h3, h4, h5, h6, h7, h8]

/-- Witness for the amended C3: provider-unavailable conjunct at the
default inputs. -/
theorem C3_amended_config_errors_witness :
    baseEnv.yt_dlp_installed = true ∧
    (truthy baseArgs.cookies_from_browser && truthy baseArgs.cookies_file) = false ∧
    (baseArgs.auto_po_token && !baseArgs.info_only) = true ∧ baseEnv.provider = none ∧
    download_video baseEnv baseArgs = ⟨2, [], 0, []⟩ :=
  ⟨rfl, rfl, rfl, rfl, (C3_amended_config_errors baseEnv baseArgs).2.2.1 rfl rfl rfl rfl⟩

/-- **C7, counterexample.** A cookie-file session (no browser cookies,
no player-client override) whose attempt fails with a 403-classified
output issues no retry at all: the 403 rule's guard tests only the
browser-cookie source, so the session ends after one invocation with no
rule engaged. -/
theorem C7_counterexample :
    truthy argsC7.cookies_file = true ∧ truthy argsC7.cookies_from_browser = false ∧
    truthy argsC7.player_client = false ∧
    has_403_error (envC7.attempts 0) = true ∧
    ¬(envC7.attempts 0).returncode = 0 ∧
    (download_video envC7 argsC7).invocations.length = 1 ∧
    (download_video envC7 argsC7).fired = [] := by
  refine ⟨?_, ?_, ?_, ?_, ?_, ?_, ?_⟩ <;> decide

/-- **C2, amended.** A failed attempt matching no classifier signature is
terminal - no rule engages and the attempt's exit code is propagated -
provided the session is not a video session whose format came from a
quality preset (for those, the format-fallback rule retries once even on
unclassified failures, as the counterexample shows). -/
theorem C2_amended_unclassified_terminal (env : Env) (a : Args)
    (hl : a.list_formats = false) (hi : a.info_only = false)
    (h403 : has_403_error (env.attempts 0) = false)
    (hpot : has_pot_error (env.attempts 0) = false)
    (hwpc : has_wpc_error (env.attempts 0) = false)
    (hterm : a.audio_only = true ∨ truthy (eff_quality a) = false) :
    (download_video env a).invocations.length ≤ 1 ∧
    (download_video env a).fired = [] ∧
    (¬(env.attempts 0).returncode = 0 → (download_video env a).invocations ≠ [] →
      (download_video env a).exit = (env.attempts 0).returncode) := by
  simp only [download_video]
  split
  · exact ⟨by simp, rfl, fun _ hne => absurd rfl hne⟩
  · split
    · exact ⟨by simp, rfl, fun _ hne => absurd rfl hne⟩
    · split
      · exact ⟨by simp, rfl, fun _ hne => absurd rfl hne⟩
      · split
        next h => rw [hl] at h; simp at h
        · split
          next h => rw [hi] at h; simp at h
          · split
            · exact ⟨by simp, rfl, fun _ hne => absurd rfl hne⟩
            · split
              next htq =>
                rcases hterm with haudio | htq'
                · split
                  · exact ⟨by simp, rfl, fun _ hne => absurd rfl hne⟩
                  · simp only [download_run]
                    split
                    next h0 => exact ⟨by simp, rfl, fun hf _ => absurd h0 hf⟩
                    next h0 =>
                      simp only [stageA, stageB, stageC, stageD, stageE, mkCtx, hpot, hwpc, h403,
                        haudio, Bool.and_false, Bool.false_and, Bool.and_true, Bool.true_and,
                        Bool.not_true, Bool.false_eq_true, if_false]
                      simp
                · rw [htq'] at htq
                  simp at htq
              next htq =>
                simp only [download_run]
                split
                next h0 => exact ⟨by simp, rfl, fun hf _ => absurd h0 hf⟩
                next h0 =>
                  simp only [stageA, stageB, stageC, stageD, stageE, mkCtx, hpot, hwpc, h403,
                    Bool.and_false, Bool.false_and, Bool.false_eq_true, if_false]
                  simp

/-- Witness for the amended C2: audio-only session, unclassifiable
failure, no retry. -/
theorem C2_amended_unclassified_terminal_witness :
    argsW2.list_formats = false ∧ argsW2.info_only = false ∧
    has_403_error (envW2.attempts 0) = false ∧ has_pot_error (envW2.attempts 0) = false ∧
    has_wpc_error (envW2.attempts 0) = false ∧
    (argsW2.audio_only = true ∨ truthy (eff_quality argsW2) = false) ∧
    ((download_video envW2 argsW2).invocations.length ≤ 1 ∧
      (download_video envW2 argsW2).fired = [] ∧
      (¬(envW2.attempts 0).returncode = 0 → (download_video envW2 argsW2).invocations ≠ [] →
        (download_video envW2 argsW2).exit = (envW2.attempts 0).returncode)) :=
  ⟨rfl, rfl, by decide, by decide, by decide, Or.inl rfl,
    C2_amended_unclassified_terminal envW2 argsW2 rfl rfl (by decide) (by decide) (by decide)
      (Or.inl rfl)⟩

/-- The format-fallback stage only appends to the trace and engages at
most rule 6. -/
theorem stageE_extends (ctx : Ctx) (s : LState) :
    ∃ t u, (stageE ctx s).invocations = s.trace ++ t ∧ (stageE ctx s).fired = s.fired ++ u ∧
      List.Sublist u [6] := by
  simp only [stageE]
  split
  · split
    · exact ⟨[_], [6], rfl, rfl, List.Sublist.refl _⟩
    · exact ⟨[_], [6], rfl, rfl, List.Sublist.refl _⟩
  · exact ⟨[], [], by simp, by simp, List.nil_sublist _⟩

/-- In the download path, a browser-cookie session with no player-client
override whose first attempt fails 403-classified (and matches no token
signature) retries with the `web_safari` rebuild of the built command as
its second invocation, engaging rule 5 exactly once. -/
theorem run_403_retry (env : Env) (a : Args) (cmd5 : List String) (q1 fs1 : Option String)
    (ffq : Bool) (ptc : Option String) (pt : Option ProviderType) (upt : Bool)
    (wbp : Option String)
    (hcb : truthy a.cookies_from_browser = true)
    (hpc : truthy a.player_client = false)
    (hfail : ¬(env.attempts 0).returncode = 0)
    (h403 : has_403_error (env.attempts 0) = true)
    (hpot : has_pot_error (env.attempts 0) = false)
    (hwpc : has_wpc_error (env.attempts 0) = false) :
    (download_run env a cmd5 q1 fs1 ffq ptc pt upt wbp).invocations.take 2 =
      [⟨build_full_cmd env a cmd5 fs1 pt wbp, env.attempts 0⟩,
        ⟨with_player_client (build_full_cmd env a cmd5 fs1 pt wbp) "web_safari",
          env.attempts 1⟩] ∧
    (download_run env a cmd5 q1 fs1 ffq ptc pt upt wbp).fired.count 5 = 1 := by
  simp only [download_run]
  split
  next h0 => exact absurd h0 hfail
  next h0 =>
    simp only [stageA, stageB, stageC, stageD, mkCtx, hpot, hwpc, h403, hcb, hpc,
      Bool.and_false, Bool.false_and, Bool.and_true, Bool.true_and, Bool.not_false,
      Bool.false_eq_true, if_false, eq_self_iff_true, if_true]
    split
    next h1 =>
      exact ⟨rfl, rfl⟩
    next h1 =>
      obtain ⟨t, u, ht, hu, hus⟩ := stageE_extends _ _
      constructor
      · rw [ht, List.take_left' (by simp)]
        rfl
      · have h5 : u.count 5 = 0 :=
          List.count_eq_zero.mpr (fun hm => by simpa using hus.subset hm)
        rw [hu, List.count_append, h5]
        rfl

/-- **C7, amended.** For every session with a browser-loaded cookie source
(cookie-file sessions do not qualify) and no explicit player-client
override, when the first attempt fails classified as forbidden access (and
no token-failure rule fires first), the engine rebuilds the command with
the `web_safari` client override and retries exactly once: the second
invocation is that rebuilt command and rule 5 engages exactly once. -/
theorem C7_amended_browser_cookie_403 (env : Env) (a : Args)
    (hl : a.list_formats = false) (hi : a.info_only = false)
    (hinst : env.yt_dlp_installed = true)
    (hcb : truthy a.cookies_from_browser = true)
    (hcf : truthy a.cookies_file = false)
    (hpc : truthy a.player_client = false)
    (hprov : ((a.auto_po_token && !a.info_only) && (env.provider).isNone) = false)
    (hfq : (truthy a.format_spec && truthy a.quality) = false)
    (hq : truthy (eff_quality a) = true →
      ¬QUALITY_PRESETS ((eff_quality a).getD "") = none)
    (hfail : ¬(env.attempts 0).returncode = 0)
    (h403 : has_403_error (env.attempts 0) = true)
    (hpot : has_pot_error (env.attempts 0) = false)
    (hwpc : has_wpc_error (env.attempts 0) = false) :
    ∃ c0, (download_video env a).invocations.take 2 =
        [⟨c0, env.attempts 0⟩, ⟨with_player_client c0 "web_safari", env.attempts 1⟩] ∧
      (download_video env a).fired.count 5 = 1 := by
  have hck : (truthy a.cookies_from_browser && truthy a.cookies_file) = false := by
    simp [hcb, hcf]
  simp only [download_video]
  split
  next h => rw [hinst] at h; simp at h
  · split
    next h => rw [hck] at h; simp at h
    · split
      next h => rw [hprov] at h; simp at h
      · split
        next h => rw [hl] at h; simp at h
        · split
          next h => rw [hi] at h; simp at h
          · split
            next h => rw [hfq] at h; simp at h
            · split
              next htq =>
                split
                next hfs => exact absurd hfs (hq htq)
                next fs hfs =>
                  exact ⟨_, run_403_retry env a _ _ _ _ _ _ _ _ hcb hpc hfail h403 hpot hwpc⟩
              next htq =>
                exact ⟨_, run_403_retry env a _ _ _ _ _ _ _ _ hcb hpc hfail h403 hpot hwpc⟩

/-- Witness for the amended C7: browser-cookie session, 403 failure, one
`web_safari` retry which succeeds. -/
theorem C7_amended_browser_cookie_403_witness :
    argsW7.list_formats = false ∧ argsW7.info_only = false ∧
    envW7.yt_dlp_installed = true ∧
    truthy argsW7.cookies_from_browser = true ∧ truthy argsW7.cookies_file = false ∧
    truthy argsW7.player_client = false ∧
    ((argsW7.auto_po_token && !argsW7.info_only) && (envW7.provider).isNone) = false ∧
    (truthy argsW7.format_spec && truthy argsW7.quality) = false ∧
    ¬(envW7.attempts 0).returncode = 0 ∧
    has_403_error (envW7.attempts 0) = true ∧
    (∃ c0, (download_video envW7 argsW7).invocations.take 2 =
        [⟨c0, envW7.attempts 0⟩, ⟨with_player_client c0 "web_safari", envW7.attempts 1⟩] ∧
      (download_video envW7 argsW7).fired.count 5 = 1) :=
  ⟨rfl, rfl, rfl, by decide, by decide, by decide, by decide, by decide, by decide, by decide,
    C7_amended_browser_cookie_403 envW7 argsW7 rfl rfl rfl (by decide) (by decide) (by decide)
      (by decide) (by decide) (by decide) (by decide) (by decide) (by decide) (by decide)⟩
